import Mathlib

/-!
Verification of the basedlang parser and tree-walking evaluator.

The development shallowly embeds the Go sources:
  * `src/evaluator/evaluator.go` — the `Eval` family of functions,
  * `src/parser/parser.go` — the Pratt parser.

The `ast`, `object` and `token` packages are not part of the given sources;
their data declarations are modelled from the specification (they are plain
data with no logic).  Machine integers (`int64`) are modelled as `Int`
together with explicit reduction `wrap64` into `[-2^63, 2^63)` at every
arithmetic operation, matching Go's two's-complement wrapping.  A Go value of
interface type that may be `nil` is modelled as an `Option`; a Go runtime
fault (nil dereference, division by zero) is the distinguished result
`Res.fault`.
-/

namespace Basedlang

/-! ## Runtime value model (modelled from the spec, §3: object package) -/

/-- Modelled from the spec: the `object` package (not under `src/`) defines the
closed set of runtime value kinds `Integer`, `Boolean`, `Null`, `Error`,
`ReturnValue`.  `ReturnValue.Value` is a Go interface value that may be `nil`,
hence the `Option`. -/
inductive Object where
  | integer (value : Int)
  | boolean (value : Bool)
  | null
  | error (message : String)
  | returnValue (value : Option Object)

/-- Modelled from the spec: the `object` package's type tags.  `"INTEGER"` and
`"BOOLEAN"` are fixed by the spec's verbatim error-message example
`"type mismatch: BOOLEAN == INTEGER"`; the remaining tags are named after the
spec §3 value kinds. -/
def Object.typeTag : Object → String
  | .integer _ => "INTEGER"
  | .boolean _ => "BOOLEAN"
  | .null => "NULL"
  | .error _ => "ERROR"
  | .returnValue _ => "RETURN_VALUE"

/-- Result of one evaluator call.  `obj o` is a non-nil `object.Object`;
`nilRes` is the `nil` interface value (returned by `evalProgram` and
`evalBlockStatements` on an empty statement list); `fault` is a Go runtime
fault (nil dereference or integer division by zero) aborting the evaluation. -/
inductive Res where
  | obj (o : Object)
  | nilRes
  | fault

/-- The Go value held in an `object.Object` variable once a fault has been
ruled out: `nilRes` is the nil interface. -/
def Res.toOpt : Res → Option Object
  | .obj o => some o
  | _ => none

/-- `isError` from evaluator.go: `obj != nil && obj.Type() == object.ERROR`. -/
def isErrorObj : Option Object → Bool
  | some (.error _) => true
  | _ => false

/-! ## Syntax tree model (modelled from the spec, §3: ast package) -/

/-- Modelled from the spec: the `ast` package (not under `src/`) defines the
node variants.  Fields of Go interface type that the parser may leave `nil`
are `Option`s.  `nilStmt` is the typed-nil `*ast.LetStatement` returned by
`parseLetStatement` on failure: converted to the `ast.Statement` interface it
is a non-nil interface value wrapping a nil pointer, so the `stmt != nil`
check in `Parse` does not filter it and it is appended to the program.
`LetStatement.Value` and `ReturnStatement.ReturnValue` are never set by the
parser (the source skips those tokens, see the TODO comments in parser.go). -/
inductive Node where
  | program (stmts : List Node)
  | letStmt (name : String)
  | nilStmt
  | returnStmt (value : Option Node)
  | exprStmt (expr : Option Node)
  | blockStmt (stmts : List Node)
  | identifier (value : String)
  | intLiteral (value : Int)
  | booleanLit (value : Bool)
  | prefixExpr (op : String) (right : Option Node)
  | infixExpr (left : Option Node) (op : String) (right : Option Node)
  | ifExpr (cond : Option Node) (body : Node) (elseNode : Option Node)

/-! ## Evaluator (src/evaluator/evaluator.go) -/

/-- Two's-complement reduction of an `Int` into the `int64` range
`[-2^63, 2^63)`; Go's arithmetic on `int64` is the mathematical operation
followed by this reduction. -/
def wrap64 (x : Int) : Int := (x + 2 ^ 63) % 2 ^ 64 - 2 ^ 63

/-- `ErrUnsupportedOperatorInfix = "unsupported operator: %s %s %s"`. -/
def errUnsupportedInfixOp (lt op rt : String) : String :=
  "unsupported operator: " ++ lt ++ " " ++ op ++ " " ++ rt

/-- `ErrUnsupportedOperatorPrefix = "unsupported operator: %s%s"`. -/
def errUnsupportedPrefixOp (op rt : String) : String :=
  "unsupported operator: " ++ op ++ rt

/-- `ErrTypeMismatch = "type mismatch: %s %s %s"`. -/
def errTypeMismatch (lt op rt : String) : String :=
  "type mismatch: " ++ lt ++ " " ++ op ++ " " ++ rt

/-- Go interface identity `left == right` as used in `evalInfixExpression`.
`TRUE`, `FALSE` and `NULL` are process-wide interned singletons, so identity
on Booleans and Null coincides with value equality; `nil == nil` is true; all
other objects reaching this comparison are distinct fresh allocations (the
both-integer case is dispatched before this comparison, and errors
short-circuit earlier in `Eval`), so their identity comparison is false. -/
def identityEq : Option Object → Option Object → Bool
  | some (.boolean a), some (.boolean b) => a == b
  | some .null, some .null => true
  | none, none => true
  | _, _ => false

/-- `isTruthy` from evaluator.go: the switch compares against the interned
`NULL`/`FALSE`/`TRUE` singletons (every Boolean/Null value in the system is
one of the singletons); anything else — including a nil interface — falls to
the default case and is truthy. -/
def isTruthy : Option Object → Bool
  | some .null => false
  | some (.boolean false) => false
  | _ => true

/-- `evalIntegerInfixExpression`; both operands are Integers holding `a` and
`b`, and the error message uses their shared type tag `"INTEGER"`.  Division
by zero is an unguarded Go runtime fault. -/
def evalIntegerInfixExpression (op : String) (a b : Int) : Res :=
  if op = "*" then .obj (.integer (wrap64 (a * b)))
  else if op = "/" then
    (if b = 0 then .fault else .obj (.integer (wrap64 (Int.tdiv a b))))
  else if op = "+" then .obj (.integer (wrap64 (a + b)))
  else if op = "-" then .obj (.integer (wrap64 (a - b)))
  else if op = "<" then .obj (.boolean (decide (a < b)))
  else if op = "<=" then .obj (.boolean (decide (a ≤ b)))
  else if op = ">" then .obj (.boolean (decide (b < a)))
  else if op = ">=" then .obj (.boolean (decide (b ≤ a)))
  else if op = "==" then .obj (.boolean (decide (a = b)))
  else if op = "!=" then .obj (.boolean (decide (a ≠ b)))
  else .obj (.error (errUnsupportedInfixOp "INTEGER" op "INTEGER"))

/-- The cases of `evalInfixExpression`'s switch after the both-integers case,
in source order: `op == "=="`, `op == "!="`, differing type tags, same-type
unsupported operator.  `l` is the (non-nil) left operand; a nil right operand
reaching the type-tag comparison faults on `right.Type()`. -/
def evalInfixLaterCases (op : String) (l : Object) (right : Option Object) : Res :=
  if op = "==" then .obj (.boolean (identityEq (some l) right))
  else if op = "!=" then .obj (.boolean (!identityEq (some l) right))
  else
    match right with
    | none => .fault
    | some r =>
      if l.typeTag ≠ r.typeTag then
        .obj (.error (errTypeMismatch l.typeTag op r.typeTag))
      else
        .obj (.error (errUnsupportedInfixOp l.typeTag op r.typeTag))

/-- `evalInfixExpression`.  The first switch guard evaluates `left.Type()`
(faulting on a nil left operand) and, only when the left type is INTEGER,
`right.Type()` (faulting on a nil right operand). -/
def evalInfixExpression (op : String) (left right : Option Object) : Res :=
  match left, right with
  | none, _ => .fault
  | some (.integer _), none => .fault
  | some (.integer a), some (.integer b) => evalIntegerInfixExpression op a b
  | some (.integer a), some r => evalInfixLaterCases op (.integer a) (some r)
  | some l, _ => evalInfixLaterCases op l right

/-- `evalBangOperatorExpression`: Boolean negation, integer zero-test, and a
permissive `FALSE` default (also for a nil operand). -/
def evalBangOperatorExpression : Option Object → Res
  | some (.boolean b) => .obj (.boolean (!b))
  | some (.integer v) => if v = 0 then .obj (.boolean true) else .obj (.boolean false)
  | _ => .obj (.boolean false)

/-- `evalMinusPrefixOperatorExpression`: the source negates the integer's
stored `int64` in place and returns the same object; observably it yields an
Integer holding the wrapped negation.  On a non-Integer the error message
formats `right.Type()`, which faults on a nil operand. -/
def evalMinusPrefixOperatorExpression : Option Object → Res
  | some (.integer v) => .obj (.integer (wrap64 (-v)))
  | none => .fault
  | some r => .obj (.error (errUnsupportedPrefixOp "-" r.typeTag))

/-- `evalPrefixExpression`: dispatch on the operator; the default case
formats `right.Type()`, which faults on a nil operand. -/
def evalPrefixExpression (op : String) (right : Option Object) : Res :=
  if op = "!" then evalBangOperatorExpression right
  else if op = "-" then evalMinusPrefixOperatorExpression right
  else
    match right with
    | none => .fault
    | some r => .obj (.error (errUnsupportedPrefixOp op r.typeTag))

/-- The body of `evalIfExpression`, as a selector over the already-computed
results of the condition, the body block, and (when an else node is present)
the else branch.  The Go source evaluates only the selected branch; since
evaluation is pure, computing both and selecting yields the same result.
Short-circuit on a condition error precedes the truthiness test. -/
def evalIfSelect (cres bres : Res) (eres : Option Res) : Res :=
  match cres with
  | .fault => .fault
  | .obj (.error m) => .obj (.error m)
  | c =>
    if isTruthy c.toOpt then bres
    else
      match eres with
      | some r => r
      | none => .obj .null

mutual

/-- `Eval` from evaluator.go: type-switch dispatch on the node.  Unhandled
variants (`Identifier`, `LetStatement`, the typed-nil statement) fall to the
default case and yield `NULL`. -/
def Eval : Node → Res
  | .program stmts => evalProgram stmts
  | .exprStmt e => EvalN e
  | .blockStmt stmts => evalBlockStatements stmts
  | .returnStmt v =>
    match EvalN v with
    | .fault => .fault
    | .obj (.error m) => .obj (.error m)
    | .obj o => .obj (.returnValue (some o))
    | .nilRes => .obj (.returnValue none)
  | .intLiteral v => .obj (.integer v)
  | .booleanLit b => .obj (.boolean b)
  | .prefixExpr op r =>
    match EvalN r with
    | .fault => .fault
    | .obj (.error m) => .obj (.error m)
    | rres => evalPrefixExpression op rres.toOpt
  | .ifExpr c b e =>
    evalIfSelect (EvalN c) (Eval b)
      (match e with
       | some el => some (EvalElse el)
       | none => none)
  | .infixExpr l op r =>
    match EvalN l with
    | .fault => .fault
    | .obj (.error m) => .obj (.error m)
    | lres =>
      match EvalN r with
      | .fault => .fault
      | .obj (.error m) => .obj (.error m)
      | rres => evalInfixExpression op lres.toOpt rres.toOpt
  | _ => .obj .null

/-- `Eval` applied to a possibly-nil `ast.Node`: a nil interface matches no
case of the type switch and falls to the default, yielding `NULL`. -/
def EvalN : Option Node → Res
  | none => .obj .null
  | some n => Eval n

/-- The else-branch type switch of `evalIfExpression`: a block statement or a
nested if-expression is evaluated with `Eval` (whose dispatch on those two
shapes is inlined here); any other node shape yields `NULL` (the defensive
default arm). -/
def EvalElse : Node → Res
  | .blockStmt s => evalBlockStatements s
  | .ifExpr c b e =>
    evalIfSelect (EvalN c) (Eval b)
      (match e with
       | some el => some (EvalElse el)
       | none => none)
  | _ => .obj .null

/-- `evalProgram`: statements in order; stop on an `Error`; stop on a
`ReturnValue` and return its unwrapped payload; otherwise the value of the
last statement (nil on an empty program). -/
def evalProgram : List Node → Res
  | [] => .nilRes
  | s :: rest =>
    match Eval s with
    | .fault => .fault
    | .obj (.error m) => .obj (.error m)
    | .obj (.returnValue v) =>
      match v with
      | some o => .obj o
      | none => .nilRes
    | res => if rest.isEmpty then res else evalProgram rest

/-- `evalBlockStatements`: like `evalProgram` but a `ReturnValue` is returned
still wrapped. -/
def evalBlockStatements : List Node → Res
  | [] => .nilRes
  | s :: rest =>
    match Eval s with
    | .fault => .fault
    | .obj (.error m) => .obj (.error m)
    | .obj (.returnValue v) => .obj (.returnValue v)
    | res => if rest.isEmpty then res else evalBlockStatements rest

end

/-! ## Token model (modelled from the spec, §3/§6: token package and lexer) -/

/-- Modelled from the spec: the `token` package (not under `src/`) defines a
token-type tag for each lexical class the parser dispatches on.  Only the
types parser.go mentions are needed. -/
inductive TokenType where
  | IDENT | INT | ASSIGN | PLUS | MINUS | BANG | ASTERISK | SLASH
  | LT | GT | LTE | GTE | EQ | NEQ
  | SEMICOLON | LPAREN | RPAREN
  | LET | RETURN | TRUE | FALSE
  | EOF
deriving DecidableEq

/-- Modelled from the spec: `token.TokenType` is rendered with `%s` in
diagnostics; the diagnostics name the token type, so each tag carries a
distinct printable string (operator/delimiter tags print their lexeme,
keyword/class tags their name). -/
def tokenTypeStr : TokenType → String
  | .IDENT => "IDENT"
  | .INT => "INT"
  | .ASSIGN => "="
  | .PLUS => "+"
  | .MINUS => "-"
  | .BANG => "!"
  | .ASTERISK => "*"
  | .SLASH => "/"
  | .LT => "<"
  | .GT => ">"
  | .LTE => "<="
  | .GTE => ">="
  | .EQ => "=="
  | .NEQ => "!="
  | .SEMICOLON => ";"
  | .LPAREN => "("
  | .RPAREN => ")"
  | .LET => "LET"
  | .RETURN => "RETURN"
  | .TRUE => "TRUE"
  | .FALSE => "FALSE"
  | .EOF => "EOF"

/-- Modelled from the spec: a token is a semantic type tag plus the literal
text matched. -/
structure Token where
  typ : TokenType
  literal : String
deriving DecidableEq

/-- The end-of-input token the external token source yields from some point
onward. -/
def eofTok : Token := ⟨.EOF, ""⟩

/-! ## Parser (src/parser/parser.go) -/

/-- Parser state: the two-token lookahead buffer, the tokens the external
source has yet to produce (it yields `eofTok` forever once exhausted —
standing in for the `lexer.Lexer` collaborator), and the accumulated
diagnostics. -/
structure Parser where
  curTok : Token
  peekTok : Token
  rest : List Token
  errors : List String

/-- `nextToken`: shift peek into current and pull a new peek from the
source. -/
def Parser.nextToken (p : Parser) : Parser :=
  match p.rest with
  | [] => { p with curTok := p.peekTok, peekTok := eofTok, rest := [] }
  | t :: ts => { p with curTok := p.peekTok, peekTok := t, rest := ts }

/-- `p.errors = append(p.errors, msg)`. -/
def Parser.addError (p : Parser) (msg : String) : Parser :=
  { p with errors := p.errors ++ [msg] }

/-- `New`: seed the lookahead buffer with two `nextToken` calls (the zero
value of the buffer before them is irrelevant; `eofTok` stands in). -/
def Parser.new (toks : List Token) : Parser :=
  (Parser.nextToken (Parser.nextToken ⟨eofTok, eofTok, toks, []⟩))

/-- `peekErr` message: `"expected next token to be %s, got %s instead"`. -/
def peekErrMsg (expected got : TokenType) : String :=
  "expected next token to be " ++ tokenTypeStr expected ++ ", got "
    ++ tokenTypeStr got ++ " instead"

/-- `expectPeek`: advance past an expected peek token, or record one
diagnostic and report failure. -/
def expectPeek (p : Parser) (t : TokenType) : Bool × Parser :=
  if p.peekTok.typ = t then (true, p.nextToken)
  else (false, p.addError (peekErrMsg t p.peekTok.typ))

/-- Precedence levels; `iota` starts the enumeration at 1 (`LOWEST`).
`PREFIXPREC`/`CALL` are the source's `PREFIX`/`CALL`. -/
def LOWEST : Nat := 1
/-- `EQUALS` precedence (`==`, `!=`). -/
def EQUALS : Nat := 2
/-- `LESSGREATER` precedence (`<`, `>`, `<=`, `>=`). -/
def LESSGREATER : Nat := 3
/-- `SUM` precedence (`+`, `-`). -/
def SUM : Nat := 4
/-- `PRODUCT` precedence (`*`, `/`). -/
def PRODUCT : Nat := 5
/-- The source's `PREFIX` precedence (unary `!`, `-`). -/
def PREFIXPREC : Nat := 6
/-- `CALL` precedence (reserved, unused). -/
def CALL : Nat := 7

/-- `getPrecedence`: infix precedence of a token type; unlisted types are
`LOWEST`. -/
def getPrecedence : TokenType → Nat
  | .EQ | .NEQ => EQUALS
  | .LT | .GT | .LTE | .GTE => LESSGREATER
  | .PLUS | .MINUS => SUM
  | .ASTERISK | .SLASH => PRODUCT
  | _ => LOWEST

/-- Modelled from the spec: `strconv.ParseInt(lit, 0, 64)` restricted to the
plain decimal digit strings the external token source produces for `INT`
tokens; `none` on a malformed literal or a value outside the `int64` range. -/
def parseIntLit (lit : String) : Option Int :=
  let cs := lit.data
  if cs ≠ [] ∧ cs.all Char.isDigit then
    let v : Nat := cs.foldl (fun acc c => acc * 10 + (c.toNat - 48)) 0
    if v ≤ 2 ^ 63 - 1 then some ((v : Int)) else none
  else none

/-- `parseIntLiteral`'s diagnostic `"could not parse %q as integer"` (the
`%q` verb wraps the literal in quotes). -/
def couldNotParseMsg (lit : String) : String :=
  "could not parse \x22" ++ lit ++ "\x22 as integer"

/-- `noPrefixParseFnErr` message. -/
def noPrefixFnMsg (t : TokenType) : String :=
  "no prefix parse function found for " ++ tokenTypeStr t

/-!
The Pratt-parsing functions below are total via a fuel argument: `none`
means the fuel ran out.  Every function consumes one unit of fuel on entry,
so any terminating run of the Go source is reproduced by a large enough fuel,
and an input on which the source loops forever yields `none` at every fuel.
Inside the `Option`, a `none` expression is the source's nil
`ast.Expression`.
-/

/-- Call descriptor for the mutually recursive expression-parsing functions
of the source, merged into the single function `pratt` below (one Lean
function recursing on fuel, so that runs reduce definitionally):
`expression pr` is `parseExpression(pr)`; `unaryOp pr` is
`parsePrefixExpression` called as the prefix handler for `!`/`-` inside
`parseExpression(pr)`; `grouped pr` likewise for `parseGroupedExpression`;
`loop pr left` is `parseExpression`'s infix `for` loop with accumulated left
expression `left`; `binaryOp left` is `parseInfixExpression(left)`. -/
inductive PrattCall where
  | expression (pr : Nat)
  | unaryOp (pr : Nat)
  | grouped (pr : Nat)
  | loop (pr : Nat) (left : Option Node)
  | binaryOp (left : Option Node)

/-- The Pratt-parsing functions of the source.  Total via a fuel argument:
`none` means the fuel ran out; every terminating run of the Go source is
reproduced by a large enough fuel.  Inside the `Option`, a `none` expression
is the source's nil `ast.Expression`.

`expression pr`: look up the prefix handler for the current token type
(recording a diagnostic and returning nil when none is registered), apply
it, then enter the infix loop.  The registered prefix handlers are the
identifier, integer literal and boolean literals (non-recursive, entering
the loop directly) and the unary-operator and grouped-expression handlers.

`unaryOp`: `parsePrefixExpression` — capture the operator, advance, parse
the operand at `PREFIX` precedence.

`grouped`: `parseGroupedExpression` — advance, parse at `LOWEST`, then
require `)` via `expectPeek` (recording a diagnostic and yielding nil when
missing).

`loop pr left`: while the peek token is not a semicolon and its precedence
exceeds `pr`, and an infix handler is registered for it (all binary-operator
token types), advance and apply the handler; otherwise yield `left`.

`binaryOp left`: `parseInfixExpression` — capture the operator (now the
current token), advance, and parse the right operand at the operator's own
precedence. -/
def pratt : Nat → PrattCall → Parser → Option (Option Node × Parser)
  | 0, _, _ => none
  | fuel + 1, .expression pr, p =>
    match p.curTok.typ with
    | .IDENT => pratt fuel (.loop pr (some (.identifier p.curTok.literal))) p
    | .INT =>
      match parseIntLit p.curTok.literal with
      | some v => pratt fuel (.loop pr (some (.intLiteral v))) p
      | none =>
        pratt fuel (.loop pr none) (p.addError (couldNotParseMsg p.curTok.literal))
    | .TRUE => pratt fuel (.loop pr (some (.booleanLit true))) p
    | .FALSE => pratt fuel (.loop pr (some (.booleanLit false))) p
    | .BANG => pratt fuel (.unaryOp pr) p
    | .MINUS => pratt fuel (.unaryOp pr) p
    | .LPAREN => pratt fuel (.grouped pr) p
    | t => some (none, p.addError (noPrefixFnMsg t))
  | fuel + 1, .unaryOp pr, p =>
    let op := p.curTok.literal
    match pratt fuel (.expression PREFIXPREC) p.nextToken with
    | none => none
    | some (right, p2) => pratt fuel (.loop pr (some (.prefixExpr op right))) p2
  | fuel + 1, .grouped pr, p =>
    match pratt fuel (.expression LOWEST) p.nextToken with
    | none => none
    | some (expr, p2) =>
      match expectPeek p2 .RPAREN with
      | (true, p3) => pratt fuel (.loop pr expr) p3
      | (false, p3) => pratt fuel (.loop pr none) p3
  | fuel + 1, .loop pr left, p =>
    if p.peekTok.typ ≠ TokenType.SEMICOLON ∧ pr < getPrecedence p.peekTok.typ then
      match p.peekTok.typ with
      | .EQ | .NEQ | .LT | .GT | .LTE | .GTE | .PLUS | .MINUS | .ASTERISK | .SLASH =>
        match pratt fuel (.binaryOp left) p.nextToken with
        | none => none
        | some (left2, p2) => pratt fuel (.loop pr left2) p2
      | _ => some (left, p)
    else some (left, p)
  | fuel + 1, .binaryOp left, p =>
    let op := p.curTok.literal
    let pre := getPrecedence p.curTok.typ
    match pratt fuel (.expression pre) p.nextToken with
    | none => none
    | some (right, p2) => some (some (.infixExpr left op right), p2)

/-- `parseExpression(pr)` of the source (entry point into `pratt`). -/
def parseExpression (fuel : Nat) (pr : Nat) (p : Parser) :
    Option (Option Node × Parser) :=
  pratt fuel (.expression pr) p

/-- The `for !p.curTokenIs(token.SEMICOLON) { p.nextToken() }` loop of
`parseLetStatement`/`parseReturnStatement`.  The loop has no end-of-input
escape: when no semicolon remains, the Go source spins on the EOF token
forever, so every fuel is exhausted. -/
def skipToSemicolon (fuel : Nat) (p : Parser) : Option Parser :=
  match fuel with
  | 0 => none
  | fuel + 1 =>
    if p.curTok.typ = TokenType.SEMICOLON then some p
    else skipToSemicolon fuel p.nextToken

/-- `parseLetStatement`: expect an identifier then an assignment token
(returning the typed-nil statement on failure), then skip tokens to the
semicolon.  The value expression is not parsed (TODO in the source). -/
def parseLetStatement (fuel : Nat) (p : Parser) : Option (Node × Parser) :=
  match expectPeek p .IDENT with
  | (false, p1) => some (.nilStmt, p1)
  | (true, p1) =>
    let name := p1.curTok.literal
    match expectPeek p1 .ASSIGN with
    | (false, p2) => some (.nilStmt, p2)
    | (true, p2) =>
      match skipToSemicolon fuel p2 with
      | none => none
      | some p3 => some (.letStmt name, p3)

/-- `parseReturnStatement`: advance, then skip tokens to the semicolon.  The
return-value expression is not parsed (TODO in the source), so the node's
value is nil. -/
def parseReturnStatement (fuel : Nat) (p : Parser) : Option (Node × Parser) :=
  match skipToSemicolon fuel p.nextToken with
  | none => none
  | some p1 => some (.returnStmt none, p1)

/-- `parseExpressionStatement`: one expression at `LOWEST`, then an optional
terminating semicolon. -/
def parseExpressionStatement (fuel : Nat) (p : Parser) : Option (Node × Parser) :=
  match parseExpression fuel LOWEST p with
  | none => none
  | some (expr, p1) =>
    let p2 := if p1.peekTok.typ = TokenType.SEMICOLON then p1.nextToken else p1
    some (.exprStmt expr, p2)

/-- `parseStatement`: dispatch on the current token's type. -/
def parseStatement (fuel : Nat) (p : Parser) : Option (Node × Parser) :=
  match p.curTok.typ with
  | .LET => parseLetStatement fuel p
  | .RETURN => parseReturnStatement fuel p
  | _ => parseExpressionStatement fuel p

/-- The `Parse` loop: until the current token is EOF, parse one statement,
append it, and advance one token.  The source's `stmt != nil` guard never
filters a statement: the only nil returned by a statement parser is the
typed-nil `*ast.LetStatement`, which is a non-nil interface value. -/
def parseLoop (fuel : Nat) (p : Parser) (acc : List Node) :
    Option (List Node × Parser) :=
  match fuel with
  | 0 => none
  | fuel + 1 =>
    if p.curTok.typ = TokenType.EOF then some (acc, p)
    else
      match parseStatement fuel p with
      | none => none
      | some (stmt, p1) => parseLoop fuel p1.nextToken (acc ++ [stmt])

/-- `Parse` on a finite token source: the resulting `Program` together with
the accumulated diagnostics (`Errs`), or `none` when the fuel is exhausted —
in particular, `none` at every fuel exactly when the Go source loops
forever. -/
def Parse (fuel : Nat) (toks : List Token) : Option (Node × List String) :=
  match parseLoop fuel (Parser.new toks) [] with
  | none => none
  | some (stmts, p) => some (.program stmts, p.errors)

/-- `Parse` diverges on this token source: no amount of fuel completes. -/
def ParseDiverges (toks : List Token) : Prop :=
  ∀ fuel, Parse fuel toks = none

/-- Parse a token source and evaluate the resulting program. -/
def parseThenEval (fuel : Nat) (toks : List Token) : Option Res :=
  match Parse fuel toks with
  | none => none
  | some (prog, _) => some (Eval prog)

/-- Whether an object is an Integer (the `right.(*object.Integer)` type
assertion of `evalMinusPrefixOperatorExpression`). -/
def Object.isInt : Object → Bool
  | .integer _ => true
  | _ => false

/-! ## Helper lemmas -/

/-- `wrap64` is the identity on the `int64` range. -/
theorem wrap64_eq_self {x : Int} (h1 : -(2 ^ 63) ≤ x) (h2 : x < 2 ^ 63) :
    wrap64 x = x := by
  unfold wrap64
  have h3 : (0 : Int) ≤ x + 2 ^ 63 := by linarith
  have h4 : x + 2 ^ 63 < 2 ^ 64 := by
    have : (2 : Int) ^ 64 = 2 ^ 63 + 2 ^ 63 := by norm_num
    linarith
  rw [Int.emod_eq_of_lt h3 h4]
  ring

/-- Truncating division stays inside the `int64` range, except at the single
overflowing input `(-2^63) / -1`. -/
theorem tdiv_in_range {a b : Int} (ha1 : -(2 ^ 63) ≤ a) (ha2 : a < 2 ^ 63)
    (hb : b ≠ 0) (hcorner : ¬(a = -(2 ^ 63) ∧ b = -1)) :
    -(2 ^ 63) ≤ Int.tdiv a b ∧ Int.tdiv a b < 2 ^ 63 := by
  by_cases hb1 : b = 1
  · subst hb1
    rw [Int.tdiv_one]
    exact ⟨ha1, ha2⟩
  · have hq : (Int.tdiv a b).natAbs = a.natAbs / b.natAbs := Int.natAbs_tdiv a b
    have hna : a.natAbs ≤ 2 ^ 63 := by omega
    have hq2 : (Int.tdiv a b).natAbs ≤ 2 ^ 63 := by
      rw [hq]
      exact le_trans (Nat.div_le_self _ _) hna
    rcases Nat.lt_or_ge (Int.tdiv a b).natAbs (2 ^ 63) with h | h
    · omega
    · exfalso
      have hqe : (Int.tdiv a b).natAbs = 2 ^ 63 := le_antisymm hq2 h
      have hale : a.natAbs / b.natAbs ≤ a.natAbs := Nat.div_le_self _ _
      have hnae : a.natAbs = 2 ^ 63 := by omega
      have hdiv : (2 ^ 63 : Nat) / b.natAbs = 2 ^ 63 := by
        rw [← hnae, ← hq, hqe, hnae]
      have hb1' : b.natAbs = 1 := by
        rcases (Nat.div_eq_self.mp hdiv) with h0 | h1
        · exact absurd h0 (by norm_num)
        · exact h1
      have : b = 1 ∨ b = -1 := by omega
      rcases this with h1 | hm1
      · exact hb1 h1
      · exact hcorner ⟨by omega, hm1⟩

/-- The semicolon-skip loop of `parseLetStatement`/`parseReturnStatement`
exhausts any fuel when no semicolon token remains in the lookahead buffer or
in the source (which yields EOF forever). -/
theorem skipToSemicolon_none (fuel : Nat) (p : Parser)
    (h1 : p.curTok.typ ≠ TokenType.SEMICOLON)
    (h2 : p.peekTok.typ ≠ TokenType.SEMICOLON)
    (h3 : ∀ t ∈ p.rest, t.typ ≠ TokenType.SEMICOLON) :
    skipToSemicolon fuel p = none := by
  induction fuel generalizing p with
  | zero => rfl
  | succ fuel ih =>
    rw [skipToSemicolon, if_neg h1]
    apply ih
    · match hr : p.rest with
      | [] => simpa [Parser.nextToken, hr, eofTok] using h2
      | t :: ts => simpa [Parser.nextToken, hr] using h2
    · match hr : p.rest with
      | [] => simp [Parser.nextToken, hr, eofTok]
      | t :: ts =>
        simp only [Parser.nextToken, hr]
        exact h3 t (by simp [hr])
    · match hr : p.rest with
      | [] => simp [Parser.nextToken, hr]
      | t :: ts =>
        simp only [Parser.nextToken, hr]
        intro u hu
        exact h3 u (by simp [hr, hu])

/-! ## Claims -/

/-- Claim C1, counterexample: evaluating `true == 1` does not yield the
claimed type-mismatch error; the `op == "=="` case of the switch precedes the
type-tag comparison and compares the two operands by identity, yielding the
interned false singleton. -/
theorem c1_counterexample :
    Eval (.infixExpr (some (.booleanLit true)) "==" (some (.intLiteral 1)))
      = .obj (.boolean false)
    ∧ Res.obj (.boolean false) ≠ .obj (.error "type mismatch: BOOLEAN == INTEGER") := by
  constructor
  · rfl
  · simp

/-- Claim C1, amended: `true == true` evaluates to the interned true
singleton and `true == 1` to the interned false singleton (for the equality
operators, operands of different type tags are compared by identity); the
type-mismatch error `"type mismatch: %s %s %s"` arises for differently-tagged
operands only when the operator is not `==`/`!=`. -/
theorem c1_equality_dispatch :
    Eval (.infixExpr (some (.booleanLit true)) "==" (some (.booleanLit true)))
      = .obj (.boolean true)
    ∧ Eval (.infixExpr (some (.booleanLit true)) "==" (some (.intLiteral 1)))
      = .obj (.boolean false)
    ∧ ∀ (op : String) (l r : Object), op ≠ "==" → op ≠ "!=" →
        l.typeTag ≠ r.typeTag →
        evalInfixExpression op (some l) (some r)
          = .obj (.error (errTypeMismatch l.typeTag op r.typeTag)) := by
  refine ⟨rfl, rfl, ?_⟩
  intro op l r h1 h2 h3
  cases l <;> cases r <;>
    simp_all [evalInfixExpression, evalInfixLaterCases, Object.typeTag]

/-- Witness for C1's amended theorem at `op = "+"`, `l = true`,
`r = Integer 1`. -/
theorem c1_witness :
    evalInfixExpression "+" (some (.boolean true)) (some (.integer 1))
      = .obj (.error "type mismatch: BOOLEAN + INTEGER") := by
  have h := c1_equality_dispatch.2.2 "+" (.boolean true) (.integer 1)
    (by decide) (by decide) (by decide)
  exact h

/-- Claim C2: a statement evaluating to a `ReturnValue` stops the sequence at
once; `evalProgram` returns the unwrapped payload while `evalBlockStatements`
returns the `ReturnValue` still wrapped, so the nested-return program
`if (true) { if (true) { return 10; } return 1; }` yields `10` at program
level, not `1`. -/
theorem c2_return_propagation :
    (∀ (s : Node) (rest : List Node) (v : Object),
      Eval s = .obj (.returnValue (some v)) →
        evalProgram (s :: rest) = .obj v
        ∧ evalBlockStatements (s :: rest) = .obj (.returnValue (some v)))
    ∧ Eval (.program [.exprStmt (some (.ifExpr (some (.booleanLit true))
        (.blockStmt
          [.exprStmt (some (.ifExpr (some (.booleanLit true))
            (.blockStmt [.returnStmt (some (.intLiteral 10))]) none)),
           .returnStmt (some (.intLiteral 1))]) none))])
      = .obj (.integer 10) := by
  constructor
  · intro s rest v h
    constructor
    · rw [evalProgram, h]
    · rw [evalBlockStatements, h]
  · rfl

/-- Witness for C2 at a concrete return statement followed by another
statement. -/
theorem c2_witness :
    evalProgram [.returnStmt (some (.intLiteral 5)), .exprStmt (some (.intLiteral 1))]
      = .obj (.integer 5) :=
  (c2_return_propagation.1 (.returnStmt (some (.intLiteral 5)))
    [.exprStmt (some (.intLiteral 1))] (.integer 5) rfl).1

/-- Claim C3: the left operand of an infix expression is evaluated first and
an error there is returned for every right operand (the right operand is not
evaluated); an error from any statement stops the statement sequence and is
the overall result; the program `5 + true; 10` yields the type-mismatch error
and the `10` statement is never reached. -/
theorem c3_error_short_circuit :
    (∀ (l : Option Node) (op : String) (r : Option Node) (m : String),
      EvalN l = .obj (.error m) →
        Eval (.infixExpr l op r) = .obj (.error m))
    ∧ (∀ (s : Node) (rest : List Node) (m : String),
      Eval s = .obj (.error m) → evalProgram (s :: rest) = .obj (.error m))
    ∧ Eval (.program
        [.exprStmt (some (.infixExpr (some (.intLiteral 5)) "+" (some (.booleanLit true)))),
         .exprStmt (some (.intLiteral 10))])
      = .obj (.error "type mismatch: INTEGER + BOOLEAN") := by
  refine ⟨?_, ?_, rfl⟩
  · intro l op r m h
    rw [Eval, h]
  · intro s rest m h
    rw [evalProgram, h]

/-- Witness for C3: the erroring left operand `5 + true` short-circuits a
surrounding multiplication whatever its right operand. -/
theorem c3_witness :
    Eval (.infixExpr (some (.infixExpr (some (.intLiteral 5)) "+" (some (.booleanLit true))))
        "*" (some (.intLiteral 3)))
      = .obj (.error "type mismatch: INTEGER + BOOLEAN") :=
  c3_error_short_circuit.1
    (some (.infixExpr (some (.intLiteral 5)) "+" (some (.booleanLit true))))
    "*" (some (.intLiteral 3)) "type mismatch: INTEGER + BOOLEAN" rfl

/-- Claim C4: in the truthiness test, exactly the Null singleton and the false
singleton are falsy; every other value — in particular every Integer,
whatever its numeric value — is truthy, so `if (0) { 1 } else { 2 }`
evaluates to `1`. -/
theorem c4_truthiness :
    isTruthy (some .null) = false
    ∧ isTruthy (some (.boolean false)) = false
    ∧ (∀ v : Int, isTruthy (some (.integer v)) = true)
    ∧ (∀ o : Object, o ≠ .null → o ≠ .boolean false → isTruthy (some o) = true)
    ∧ Eval (.program [.exprStmt (some (.ifExpr (some (.intLiteral 0))
        (.blockStmt [.exprStmt (some (.intLiteral 1))])
        (some (.blockStmt [.exprStmt (some (.intLiteral 2))]))))])
      = .obj (.integer 1) := by
  refine ⟨rfl, rfl, fun v => rfl, ?_, rfl⟩
  intro o h1 h2
  cases o with
  | boolean b => cases b with
    | false => exact absurd rfl h2
    | true => rfl
  | null => exact absurd rfl h1
  | integer v => rfl
  | error m => rfl
  | returnValue v => rfl

/-- Witness for C4's universally quantified part at the Integer `0`. -/
theorem c4_witness : isTruthy (some (.integer 0)) = true :=
  c4_truthiness.2.2.2.1 (.integer 0) (by simp) (by simp)

set_option maxRecDepth 8000 in
/-- Claim C5: binary operators are left-associative — `1 - 2 - 3` parses as
`(1 - 2) - 3` and evaluates to `-4` — and precedence is respected —
`1 + 2 * 3` evaluates to `7` and `(1 + 2) * 3` to `9` — for programs parsed
by the parser and then evaluated. -/
theorem c5_precedence_associativity :
    Parse 32 [⟨.INT, "1"⟩, ⟨.MINUS, "-"⟩, ⟨.INT, "2"⟩, ⟨.MINUS, "-"⟩, ⟨.INT, "3"⟩]
      = some (.program [.exprStmt (some (.infixExpr
          (some (.infixExpr (some (.intLiteral 1)) "-" (some (.intLiteral 2)))) "-"
          (some (.intLiteral 3))))], [])
    ∧ parseThenEval 32 [⟨.INT, "1"⟩, ⟨.MINUS, "-"⟩, ⟨.INT, "2"⟩, ⟨.MINUS, "-"⟩, ⟨.INT, "3"⟩]
      = some (.obj (.integer (-4)))
    ∧ parseThenEval 32 [⟨.INT, "1"⟩, ⟨.PLUS, "+"⟩, ⟨.INT, "2"⟩, ⟨.ASTERISK, "*"⟩, ⟨.INT, "3"⟩]
      = some (.obj (.integer 7))
    ∧ parseThenEval 32 [⟨.LPAREN, "("⟩, ⟨.INT, "1"⟩, ⟨.PLUS, "+"⟩, ⟨.INT, "2"⟩, ⟨.RPAREN, ")"⟩,
        ⟨.ASTERISK, "*"⟩, ⟨.INT, "3"⟩]
      = some (.obj (.integer 9)) :=
  ⟨rfl, rfl, rfl, rfl⟩

/-- Claim C6: on two Integer operands, `/` yields the truncating quotient in
`int64` arithmetic and `*`, `+`, `-` match wrapping signed 64-bit arithmetic;
the wrapped truncating quotient equals the exact truncating quotient for all
in-range operands except the single overflow `(-2^63) / -1`; division by zero
has no guard in the evaluator and is the Go runtime fault. -/
theorem c6_integer_arithmetic (a b : Int) :
    (b ≠ 0 → Eval (.infixExpr (some (.intLiteral a)) "/" (some (.intLiteral b)))
      = .obj (.integer (wrap64 (Int.tdiv a b))))
    ∧ Eval (.infixExpr (some (.intLiteral a)) "*" (some (.intLiteral b)))
      = .obj (.integer (wrap64 (a * b)))
    ∧ Eval (.infixExpr (some (.intLiteral a)) "+" (some (.intLiteral b)))
      = .obj (.integer (wrap64 (a + b)))
    ∧ Eval (.infixExpr (some (.intLiteral a)) "-" (some (.intLiteral b)))
      = .obj (.integer (wrap64 (a - b)))
    ∧ Eval (.infixExpr (some (.intLiteral a)) "/" (some (.intLiteral 0))) = .fault
    ∧ (-(2 ^ 63) ≤ a → a < 2 ^ 63 → -(2 ^ 63) ≤ b → b < 2 ^ 63 → b ≠ 0 →
        ¬(a = -(2 ^ 63) ∧ b = -1) → wrap64 (Int.tdiv a b) = Int.tdiv a b) := by
  refine ⟨?_, rfl, rfl, rfl, ?_, ?_⟩
  · intro hb
    have h : Eval (.infixExpr (some (.intLiteral a)) "/" (some (.intLiteral b)))
        = if b = 0 then Res.fault else .obj (.integer (wrap64 (Int.tdiv a b))) := by
      rfl
    rw [h, if_neg hb]
  · have h : Eval (.infixExpr (some (.intLiteral a)) "/" (some (.intLiteral 0)))
        = if (0 : Int) = 0 then Res.fault
          else .obj (.integer (wrap64 (Int.tdiv a 0))) := by
      rfl
    rw [h, if_pos rfl]
  · intro ha1 ha2 hb1 hb2 hb hcorner
    have := tdiv_in_range ha1 ha2 hb hcorner
    exact wrap64_eq_self this.1 this.2

/-- Witness for C6 at `a = 7`, `b = 2`: the quotient is the (in-range, hence
unwrapped) truncating quotient `3`. -/
theorem c6_witness :
    Eval (.infixExpr (some (.intLiteral 7)) "/" (some (.intLiteral 2)))
      = .obj (.integer (wrap64 (Int.tdiv 7 2)))
    ∧ wrap64 (Int.tdiv 7 2) = Int.tdiv 7 2 :=
  ⟨(c6_integer_arithmetic 7 2).1 (by decide),
   (c6_integer_arithmetic 7 2).2.2.2.2.2 (by decide) (by decide) (by decide)
     (by decide) (by decide) (by decide)⟩

/-- Claim C7: a `let` whose identifier is not followed by the assignment
token is not fatal: exactly one diagnostic naming the expected token type and
the found token type is appended, the statement parser yields no node (the
typed-nil statement), and the top-level loop goes on parsing the following
statements. -/
theorem c7_let_missing_assign :
    (∀ (fuel : Nat) (p : Parser), p.peekTok.typ = TokenType.IDENT →
      p.nextToken.peekTok.typ ≠ TokenType.ASSIGN →
        parseLetStatement fuel p = some (.nilStmt,
          p.nextToken.addError (peekErrMsg .ASSIGN p.nextToken.peekTok.typ)))
    ∧ Parse 32 [⟨.LET, "let"⟩, ⟨.IDENT, "x"⟩, ⟨.INT, "5"⟩, ⟨.SEMICOLON, ";"⟩,
        ⟨.INT, "7"⟩, ⟨.SEMICOLON, ";"⟩]
      = some (.program [.nilStmt, .exprStmt (some (.intLiteral 5)),
          .exprStmt (some (.intLiteral 7))],
          ["expected next token to be =, got INT instead"]) := by
  constructor
  · intro fuel p h1 h2
    simp [parseLetStatement, expectPeek, h1, h2]
  · rfl

/-- Witness for C7's general part at a concrete parser state (`let x 5`). -/
theorem c7_witness :
    parseLetStatement 5 ⟨⟨.LET, "let"⟩, ⟨.IDENT, "x"⟩, [⟨.INT, "5"⟩], []⟩
      = some (.nilStmt, ⟨⟨.IDENT, "x"⟩, ⟨.INT, "5"⟩, [],
          ["expected next token to be =, got INT instead"]⟩) := by
  have h := c7_let_missing_assign.1 5 ⟨⟨.LET, "let"⟩, ⟨.IDENT, "x"⟩, [⟨.INT, "5"⟩], []⟩
    rfl (by decide)
  exact h

/-- Claim C8: prefix `!` negates a Boolean, maps an Integer to the true
singleton exactly when it is zero, and maps every other value kind to the
false singleton — always producing a Boolean, never an Error. -/
theorem c8_bang_semantics :
    (∀ o : Object, evalPrefixExpression "!" (some o)
      = .obj (.boolean (match o with
          | .boolean b => !b
          | .integer v => decide (v = 0)
          | _ => false)))
    ∧ Eval (.prefixExpr "!" (some (.booleanLit true))) = .obj (.boolean false)
    ∧ Eval (.prefixExpr "!" (some (.intLiteral 0))) = .obj (.boolean true)
    ∧ Eval (.prefixExpr "!" (some (.intLiteral 7))) = .obj (.boolean false) := by
  refine ⟨?_, rfl, rfl, rfl⟩
  intro o
  cases o with
  | integer v =>
    by_cases h : v = 0 <;>
      simp [evalPrefixExpression, evalBangOperatorExpression, h]
  | boolean b => rfl
  | null => rfl
  | error m => rfl
  | returnValue v => rfl

/-- Claim C9: prefix `-` yields the (64-bit) negation exactly on Integer
operands — the wrapped negation agrees with exact negation everywhere but at
`-2^63` — and on every non-Integer operand yields the error
`"unsupported operator: %s%s"` formatted with the operator and the operand's
type tag. -/
theorem c9_minus_semantics :
    (∀ v : Int, evalPrefixExpression "-" (some (.integer v))
      = .obj (.integer (wrap64 (-v))))
    ∧ (∀ v : Int, -(2 ^ 63) < v → v < 2 ^ 63 → wrap64 (-v) = -v)
    ∧ (∀ o : Object, o.isInt = false →
        evalPrefixExpression "-" (some o)
          = .obj (.error ("unsupported operator: -" ++ o.typeTag)))
    ∧ Eval (.prefixExpr "-" (some (.intLiteral 5))) = .obj (.integer (-5))
    ∧ Eval (.prefixExpr "-" (some (.booleanLit true)))
      = .obj (.error "unsupported operator: -BOOLEAN") := by
  refine ⟨fun v => rfl, ?_, ?_, rfl, rfl⟩
  · intro v h1 h2
    exact wrap64_eq_self (by omega) (by omega)
  · intro o h
    cases o with
    | integer v => simp [Object.isInt] at h
    | boolean b => rfl
    | null => rfl
    | error m => rfl
    | returnValue v => rfl

/-- Witness for C9's hypotheses: the in-range negation at `5` and the error
case at the Null operand. -/
theorem c9_witness :
    wrap64 (-(5 : Int)) = -5
    ∧ evalPrefixExpression "-" (some .null)
      = .obj (.error "unsupported operator: -NULL") :=
  ⟨c9_minus_semantics.2.1 5 (by decide) (by decide),
   c9_minus_semantics.2.2.1 .null (by decide)⟩

/-- Claim C10, counterexample: `Parse` does not terminate on the token source
of `let x = 5` (no terminating semicolon): the semicolon-skip loop of
`parseLetStatement` spins on the EOF tokens forever, so every fuel is
exhausted. -/
theorem c10_counterexample :
    ParseDiverges [⟨.LET, "let"⟩, ⟨.IDENT, "x"⟩, ⟨.ASSIGN, "="⟩, ⟨.INT, "5"⟩] := by
  intro fuel
  cases fuel with
  | zero => rfl
  | succ fuel =>
    have hskip : skipToSemicolon fuel ⟨⟨.ASSIGN, "="⟩, ⟨.INT, "5"⟩, [], []⟩ = none :=
      skipToSemicolon_none fuel _ (by decide) (by decide) (by intro t ht; simp at ht)
    simp [Parse, parseLoop, parseStatement, parseLetStatement, expectPeek,
      Parser.new, Parser.nextToken, hskip]

/-- Claim C10, amended: `Parse` terminates and returns a `Program` for token
sources whose `let`/`return` statements reach a terminating semicolon — e.g.
`let x = 5;` and `return 5;` — but the semicolon-skip loop completes at no
fuel when no semicolon token remains, so on input whose final `let`/`return`
lacks a semicolon before end-of-input `Parse` fails to terminate. -/
theorem c10_termination :
    Parse 32 [⟨.LET, "let"⟩, ⟨.IDENT, "x"⟩, ⟨.ASSIGN, "="⟩, ⟨.INT, "5"⟩, ⟨.SEMICOLON, ";"⟩]
      = some (.program [.letStmt "x"], [])
    ∧ Parse 32 [⟨.RETURN, "return"⟩, ⟨.INT, "5"⟩, ⟨.SEMICOLON, ";"⟩]
      = some (.program [.returnStmt none], [])
    ∧ (∀ (fuel : Nat) (p : Parser), p.curTok.typ ≠ TokenType.SEMICOLON →
        p.peekTok.typ ≠ TokenType.SEMICOLON →
        (∀ t ∈ p.rest, t.typ ≠ TokenType.SEMICOLON) →
        skipToSemicolon fuel p = none) :=
  ⟨rfl, rfl, skipToSemicolon_none⟩

/-- Witness for C10's amended theorem: the skip loop yields nothing from the
state reached after `let x =` with only a `5` ahead. -/
theorem c10_witness :
    skipToSemicolon 5 ⟨⟨.ASSIGN, "="⟩, ⟨.INT, "5"⟩, [], []⟩ = none :=
  c10_termination.2.2 5 ⟨⟨.ASSIGN, "="⟩, ⟨.INT, "5"⟩, [], []⟩
    (by decide) (by decide) (by intro t ht; simp at ht)

end Basedlang
